import Mathlib

set_option maxHeartbeats 1000000

namespace RisingWave

/-!
Shallow embedding of the RisingWave compute-node sources under verification:
memory management (`src/compute/src/memory_management/memory_manager.rs`),
the stream top-N plan node
(`src/frontend/src/optimizer/plan_node/stream_topn.rs`), unary expression
construction (`src/expr/src/expr/expr_unary.rs`) and the sqlsmith test
runner (`src/tests/sqlsmith/src/runner.rs`).

Machine integers (`u64`, `u32`, `usize`) are embedded as `Nat`; the `as i64`
casts performed when publishing metrics are made explicit via `i64ofU64`.
Rust `panic!`/`assert!` paths are embedded as `Option.none`; fallible
constructors return `Except`.
-/

/-! ## Memory management: `memory_manager.rs` -/

/-- One usage sample: bytes occupied by batch execution, streaming execution
and the process allocator (spec §4.2 `UsageProbe`). -/
structure UsageReading where
  batch_bytes : Nat
  streaming_bytes : Nat
  allocator_bytes : Nat
deriving DecidableEq, Repr

/-- `MemoryControlStats` from the policy module, as initialized and consumed
by `GlobalMemoryManager::run` (memory_manager.rs lines 101-108). All fields
are unsigned machine integers embedded as `Nat`. -/
structure MemoryControlStats where
  batch_memory_usage : Nat
  streaming_memory_usage : Nat
  jemalloc_allocated_mib : Nat
  lru_watermark_step : Nat
  lru_watermark_time_ms : Nat
  lru_physical_now_ms : Nat
deriving DecidableEq, Repr

/-- The subset of `StreamingMetrics` gauges and counters written by
`GlobalMemoryManager::run` (memory_manager.rs lines 123-141). Gauges are
`i64` (embedded as `Int`), the loop counter is an unsigned counter. -/
structure StreamingMetrics where
  lru_current_watermark_time_ms : Int
  lru_physical_now_ms : Int
  lru_watermark_step : Int
  lru_runtime_loop_count : Nat
  jemalloc_allocated_bytes : Int
  stream_total_mem_usage : Int
  batch_total_mem_usage : Int
deriving DecidableEq, Repr

/-- Reinterpretation of an unsigned 64-bit value as a signed one, the `as i64`
cast applied to each stat before it is stored in a metrics gauge. -/
def i64ofU64 (x : Nat) : Int :=
  if x % 2 ^ 64 < 2 ^ 63 then (x % 2 ^ 64 : Int) else (x % 2 ^ 64 : Int) - 2 ^ 64

/-- Pressure thresholds and step bound of the memory control policy
(spec §4.3): `low`, `soft`, `hard` are percentages of the total compute
memory budget, `max_step` bounds the watermark step. -/
structure PolicyConfig where
  low : Nat
  soft : Nat
  hard : Nat
  max_step : Nat
deriving DecidableEq, Repr

/-- The memory control policy handed to `GlobalMemoryManager::new`. The
policy module itself is absent from the sources; its configuration record is
carried here. -/
structure MemoryControlPolicy where
  cfg : PolicyConfig
deriving DecidableEq, Repr

/-- Modelled from the spec: construction-time validation of the memory
control policy (spec §7: "threshold misconfiguration ... fatal at controller
construction — the controller refuses to start rather than run with
nonsensical thresholds"; §8: "constructing a controller with `low ≥ soft` or
`soft ≥ hard` must fail at construction"). The policy module is absent from
the sources. A valid configuration has `0 < low < soft < hard`. -/
def MemoryControlPolicy.validate (cfg : PolicyConfig) : Option MemoryControlPolicy :=
  if 0 < cfg.low ∧ cfg.low < cfg.soft ∧ cfg.soft < cfg.hard then
    some { cfg := cfg }
  else
    none

/-- Modelled from the spec: the per-tick step decision of the policy module
(spec §4.3, absent from the sources). Combined pressure is the larger of the
batch+streaming signal and the corroborating allocator signal, compared
against the thresholds as fractions of the total budget: below `low` the
step decays toward zero, between `low` and `hard` it ramps up by one per
tick (capped at `max_step`), at or above `hard` it is the maximal step. -/
def decideStep (cfg : PolicyConfig) (total : Nat) (u : UsageReading)
    (prevStep : Nat) : Nat :=
  let used := max (u.batch_bytes + u.streaming_bytes) u.allocator_bytes
  if cfg.hard * total ≤ used * 100 then
    cfg.max_step
  else if cfg.low * total ≤ used * 100 then
    min (prevStep + 1) cfg.max_step
  else
    prevStep - 1

/-- Modelled from the spec: the base epoch advance of one tick as a
deterministic function of the tick interval (spec §4.1 and §4.3 numeric
semantics: "watermark epoch advance per tick =
base_epoch_delta(tick_interval) * (1 + step)"). -/
def baseEpochDelta (intervalMs : Nat) : Nat := intervalMs

/-- Modelled from the spec: `MemoryControlPolicy::apply` (the policy module,
absent from the sources). Given the total budget, tick interval, previous
stats, a usage reading, the current wall-clock time and the current
watermark, it decides the new step (§4.3), advances the watermark by
`baseEpochDelta * (1 + step)` (§4.1, §4.3) and returns the new stats
together with the published watermark. It is a total function: the policy
never raises an error (§4.3 failure semantics). -/
def MemoryControlPolicy.apply (p : MemoryControlPolicy) (total intervalMs : Nat)
    (prev : MemoryControlStats) (u : UsageReading) (now : Nat)
    (watermark : Nat) : MemoryControlStats × Nat :=
  let step := decideStep p.cfg total u prev.lru_watermark_step
  let newWatermark := watermark + baseEpochDelta intervalMs * (1 + step)
  ({ batch_memory_usage := u.batch_bytes
     streaming_memory_usage := u.streaming_bytes
     jemalloc_allocated_mib := u.allocator_bytes
     lru_watermark_step := step
     lru_watermark_time_ms := newWatermark
     lru_physical_now_ms := now }, newWatermark)

/-- `GlobalMemoryManager` (memory_manager.rs lines 33-44). The
`Arc<AtomicU64>` watermark is embedded as its `Nat` value. -/
structure GlobalMemoryManager where
  watermark_epoch : Nat
  total_compute_memory_bytes : Nat
  barrier_interval_ms : Nat
  metrics : StreamingMetrics
  memory_control_policy : MemoryControlPolicy
deriving DecidableEq, Repr

/-- `GlobalMemoryManager::new` (memory_manager.rs lines 49-71): clamps the
barrier interval to a minimum of 10 ms and initializes the watermark epoch
to 0. -/
def GlobalMemoryManager.new (total_compute_memory_bytes : Nat)
    (barrier_interval_ms : Nat) (metrics : StreamingMetrics)
    (memory_control_policy : MemoryControlPolicy) : GlobalMemoryManager :=
  let barrier_interval_ms := max barrier_interval_ms 10
  { watermark_epoch := 0
    total_compute_memory_bytes := total_compute_memory_bytes
    barrier_interval_ms := barrier_interval_ms
    metrics := metrics
    memory_control_policy := memory_control_policy }

/-- `GlobalMemoryManager::get_watermark_epoch` (memory_manager.rs
lines 73-75): hands out the shared watermark handle; in the embedding this
is a pure load of the current value, mutating nothing. -/
def GlobalMemoryManager.get_watermark_epoch (m : GlobalMemoryManager) : Nat :=
  m.watermark_epoch

/-- Construction of a running controller from raw thresholds: policy
validation (spec §7) followed by `GlobalMemoryManager::new`. A misconfigured
policy yields no controller at all, so no violation can reach a runtime
tick. -/
def mkController (total intervalMs : Nat) (metrics : StreamingMetrics)
    (cfg : PolicyConfig) : Option GlobalMemoryManager :=
  (MemoryControlPolicy.validate cfg).map
    (GlobalMemoryManager.new total intervalMs metrics)

/-- The mutable state threaded through `GlobalMemoryManager::run`: the
rolling `MemoryControlStats`, the shared watermark value and the metrics
sink. -/
structure LoopState where
  stats : MemoryControlStats
  watermark : Nat
  metrics : StreamingMetrics
deriving DecidableEq, Repr

/-- The metrics publication block of `GlobalMemoryManager::run`
(memory_manager.rs lines 123-141): every gauge is set from the post-apply
stats via an `as i64` cast and the runtime loop counter is incremented. -/
def GlobalMemoryManager.publish_metrics (metrics : StreamingMetrics)
    (s : MemoryControlStats) : StreamingMetrics :=
  { lru_current_watermark_time_ms := i64ofU64 s.lru_watermark_time_ms
    lru_physical_now_ms := i64ofU64 s.lru_physical_now_ms
    lru_watermark_step := i64ofU64 s.lru_watermark_step
    lru_runtime_loop_count := metrics.lru_runtime_loop_count + 1
    jemalloc_allocated_bytes := i64ofU64 s.jemalloc_allocated_mib
    stream_total_mem_usage := i64ofU64 s.streaming_memory_usage
    batch_total_mem_usage := i64ofU64 s.batch_memory_usage }

/-- One iteration of the loop body of `GlobalMemoryManager::run`
(memory_manager.rs lines 110-142), parametric in the policy `apply`
function: apply the policy to the previous stats and watermark, then publish
the per-tick metrics from the post-apply stats. -/
def GlobalMemoryManager.tickOnce
    (applyFn : Nat → Nat → MemoryControlStats → UsageReading → Nat → Nat →
      MemoryControlStats × Nat)
    (m : GlobalMemoryManager) (u : UsageReading) (now : Nat)
    (st : LoopState) : LoopState :=
  let res := applyFn m.total_compute_memory_bytes m.barrier_interval_ms
    st.stats u now st.watermark
  { stats := res.1
    watermark := res.2
    metrics := GlobalMemoryManager.publish_metrics st.metrics res.1 }

/-- The stats value `GlobalMemoryManager::run` starts from
(memory_manager.rs lines 101-108): zero usage, zero step, both time fields
set to the current physical time. -/
def initialStats (now0 : Nat) : MemoryControlStats :=
  { batch_memory_usage := 0
    streaming_memory_usage := 0
    jemalloc_allocated_mib := 0
    lru_watermark_step := 0
    lru_watermark_time_ms := now0
    lru_physical_now_ms := now0 }

/-- The state of `GlobalMemoryManager::run` after `n` ticks, with the usage
readings and wall-clock times of the ticks given as streams. Tick `n + 1`
applies the (spec-modelled) policy to the state after tick `n`. -/
def GlobalMemoryManager.runLoop (m : GlobalMemoryManager) (now0 : Nat)
    (usage : Nat → UsageReading) (times : Nat → Nat) : Nat → LoopState
  | 0 =>
    { stats := initialStats now0
      watermark := m.watermark_epoch
      metrics := m.metrics }
  | n + 1 =>
    GlobalMemoryManager.tickOnce m.memory_control_policy.apply m (usage n)
      (times n) (GlobalMemoryManager.runLoop m now0 usage times n)

/-- A concrete all-zero metrics record, used for concrete instantiations. -/
def zeroMetrics : StreamingMetrics :=
  { lru_current_watermark_time_ms := 0
    lru_physical_now_ms := 0
    lru_watermark_step := 0
    lru_runtime_loop_count := 0
    jemalloc_allocated_bytes := 0
    stream_total_mem_usage := 0
    batch_total_mem_usage := 0 }

/-! ## Stream top-N plan node: `stream_topn.rs` -/

/-- The distribution property of a plan node
(`crate::optimizer::property::Distribution`). -/
inductive Distribution where
  | single
  | someShard
  | broadcast
  | hashShard (keys : List Nat)
  | upstreamHashShard (keys : List Nat)
deriving DecidableEq, Repr

/-- The functional dependency set carried by a logical plan node, embedded
as a list of (determinant, dependent) column-index pairs. -/
structure FunctionalDependencySet where
  deps : List (List Nat × List Nat)
deriving DecidableEq, Repr

/-- The data `StreamTopN::new` reads from the input plan node
(`logical.input()`): its schema length, stream key, distribution and
append-only flag. -/
structure PlanNodeInfo where
  schema_len : Nat
  logical_pk : List Nat
  dist : Distribution
  append_only : Bool
deriving DecidableEq, Repr

/-- `LogicalTopN`, restricted to the fields `StreamTopN` reads: group key,
limit, offset, with-ties flag, ordering, context id, functional dependencies
and the input node. -/
structure LogicalTopN where
  group_key : List Nat
  limit : Nat
  offset : Nat
  with_ties : Bool
  topn_order : List (Nat × Bool)
  ctx : Nat
  functional_dependency : FunctionalDependencySet
  input : PlanNodeInfo
deriving DecidableEq, Repr

/-- `FixedBitSet::with_capacity(n)`: a bitset of `n` bits, all unset. -/
def FixedBitSet.with_capacity (n : Nat) : List Bool :=
  List.replicate n false

/-- `PlanBase` of a stream plan node, restricted to the fields
`PlanBase::new_stream` stores from its arguments. -/
structure PlanBase where
  ctx : Nat
  schema_len : Nat
  logical_pk : List Nat
  functional_dependency : FunctionalDependencySet
  dist : Distribution
  append_only : Bool
  watermark_columns : List Bool
deriving DecidableEq, Repr

/-- `PlanBase::new_stream`: records its arguments in the stream plan base. -/
def PlanBase.new_stream (ctx : Nat) (schema_len : Nat) (logical_pk : List Nat)
    (functional_dependency : FunctionalDependencySet) (dist : Distribution)
    (append_only : Bool) (watermark_columns : List Bool) : PlanBase :=
  { ctx := ctx
    schema_len := schema_len
    logical_pk := logical_pk
    functional_dependency := functional_dependency
    dist := dist
    append_only := append_only
    watermark_columns := watermark_columns }

/-- `StreamTopN` (stream_topn.rs lines 26-29). -/
structure StreamTopN where
  base : PlanBase
  logical : LogicalTopN
deriving DecidableEq, Repr

/-- `StreamTopN::new` (stream_topn.rs lines 32-54). The two `assert!`s and
the `panic!` on a non-`Single` input distribution are embedded as `none`;
on success the node carries an all-unset watermark-column bitset sized to
the input schema. -/
def StreamTopN.new (logical : LogicalTopN) : Option StreamTopN :=
  if logical.group_key.isEmpty then
    if 0 < logical.limit then
      match logical.input.dist with
      | Distribution.single =>
        some { base := PlanBase.new_stream logical.ctx logical.input.schema_len
                 logical.input.logical_pk logical.functional_dependency
                 Distribution.single false
                 (FixedBitSet.with_capacity logical.input.schema_len)
               logical := logical }
      | _ => none
    else none
  else none

/-! ## Sqlsmith runner: `runner.rs` -/

/-- A database error inside a `PgError`, exposing only its rendered
message. -/
structure DbError where
  message : String
deriving DecidableEq, Repr

/-- `DbError::to_string`. -/
def DbError.to_string (e : DbError) : String := e.message

/-- `tokio_postgres::error::Error`: its rendered message and the database
error it wraps, when `as_db_error` yields one. -/
structure PgError where
  message : String
  db_error : Option DbError
deriving DecidableEq, Repr

/-- `format_fail_reason` (runner.rs lines 420-436): the consolidated failure
message naming the setup SQL, the query and the error. -/
def format_fail_reason (setup_sql query : String) (e : PgError) : String :=
  "\n[UNEXPECTED ERROR]:\n---- START\n-- Setup\n" ++ setup_sql ++
    "\n-- Query\n" ++ query ++ "\n---- END\n\nReason:\n" ++ e.message ++ "\n"

/-- `validate_response` (runner.rs lines 439-455), parametric in
`is_permissible_error` (defined in `crate::validation`, outside these
sources) and in the row type of the response: a successful response counts
0 skipped queries; a database error with a permissible message counts 1;
any other error becomes the consolidated failure message. -/
def validate_response {Row : Type}
    (is_permissible_error : String → Bool)
    (setup_sql query : String) (response : Except PgError Row) :
    Except String Int :=
  match response with
  | Except.ok _ => Except.ok 0
  | Except.error e =>
    match e.db_error with
    | some dbe =>
      if is_permissible_error dbe.to_string then
        Except.ok 1
      else
        Except.error (format_fail_reason setup_sql query e)
    | none => Except.error (format_fail_reason setup_sql query e)

/-! ## Unary expression construction: `expr_unary.rs` -/

/-- `risingwave_common::types::DataType`, restricted to the variants
`new_unary_expr` discriminates on. -/
inductive DataType where
  | boolean
  | int16
  | int32
  | int64
  | float32
  | float64
  | decimal
  | varchar
  | date
  | time
  | timestamp
  | timestamptz
  | interval
  | jsonb
  | bytea
  | list (datatype : DataType)
  | struct (fields : List DataType)

/-- The protobuf expression types handled by `new_unary_expr`; every other
type falls into `otherType` and reaches the final catch-all arm. -/
inductive ProstType where
  | cast
  | boolOut
  | not
  | isTrue
  | isNotTrue
  | isFalse
  | isNotFalse
  | isNull
  | isNotNull
  | upper
  | lower
  | md5
  | ascii
  | charLength
  | octetLength
  | bitLength
  | neg
  | abs
  | bitwiseNot
  | ceil
  | floor
  | round
  | exp
  | toTimestamp
  | jsonbTypeof
  | jsonbArrayLength
  | otherType (code : Nat)

/-- `crate::ExprError`, restricted to the variants relevant here plus
representatives of the remaining ones, so that "only unsupported-function /
unsupported-cast errors are produced" is a nontrivial statement. -/
inductive ExprError where
  | UnsupportedFunction (msg : String)
  | UnsupportedCast (src tgt : DataType)
  | Internal (msg : String)
  | NumericOutOfRange
  | DivisionByZero

/-- Which error variants a construction failure of `new_unary_expr` may
carry. -/
def ExprError.isUnsupported : ExprError → Bool
  | ExprError.UnsupportedFunction _ => true
  | ExprError.UnsupportedCast _ _ => true
  | _ => false

/-- A description of the boxed expression built by each successful arm of
`new_unary_expr`: which template was instantiated and at which array
types. -/
inductive BuiltExpr where
  | unaryExpr (input ret : DataType)
  | unaryBytesExpr (input : DataType)
  | fastUnary (input ret : DataType)
  | boolUnary
  | isNullExpr
  | isNotNullExpr
  | castGeneral (src tgt : DataType)
  | castStrToList (tgt : DataType)
  | castStructToStruct (src tgt : List DataType)
  | castListToList (src tgt : DataType)

/-- Whether `Except.ok`, or an error satisfying `p`: the classification a
fallible constructor's result must satisfy. -/
def exceptOkOr (p : ExprError → Bool) : Except ExprError BuiltExpr → Bool
  | Except.ok _ => true
  | Except.error e => p e

/-- The general-cast arm of `new_unary_expr`
(expr_unary.rs lines 166-202): the `for_all_cast_variants!` table (defined
outside these sources) is abstracted as the predicate `castTable`; a pair
absent from the table is an `UnsupportedCast` error. -/
def castArm (castTable : DataType → DataType → Bool)
    (return_type child_type : DataType) : Except ExprError BuiltExpr :=
  if castTable child_type return_type then
    Except.ok (BuiltExpr.castGeneral child_type return_type)
  else
    Except.error (ExprError.UnsupportedCast child_type return_type)

/-- The `Cast` dispatch of `new_unary_expr` (expr_unary.rs lines 135-202):
the three structural arms (varchar to list, struct to struct, list to list)
followed by the general cast table. -/
def castDispatch (castTable : DataType → DataType → Bool)
    (return_type child_type : DataType) : Except ExprError BuiltExpr :=
  match return_type, child_type with
  | DataType.list t, DataType.varchar => Except.ok (BuiltExpr.castStrToList t)
  | DataType.struct rty, DataType.struct lty =>
    Except.ok (BuiltExpr.castStructToStruct lty rty)
  | DataType.list t, DataType.list s => Except.ok (BuiltExpr.castListToList s t)
  | r, c => castArm castTable r c

/-- The `gen_unary_atm_expr!` dispatch used by `Neg` and `Abs`
(expr_unary.rs lines 86-108): the five numeric types plus decimal succeed,
anything else is an `UnsupportedFunction` error. -/
def atmArm (name : String) (child_type : DataType) : Except ExprError BuiltExpr :=
  match child_type with
  | DataType.int16 => Except.ok (BuiltExpr.unaryExpr DataType.int16 DataType.int16)
  | DataType.int32 => Except.ok (BuiltExpr.unaryExpr DataType.int32 DataType.int32)
  | DataType.int64 => Except.ok (BuiltExpr.unaryExpr DataType.int64 DataType.int64)
  | DataType.float32 =>
    Except.ok (BuiltExpr.unaryExpr DataType.float32 DataType.float32)
  | DataType.float64 =>
    Except.ok (BuiltExpr.unaryExpr DataType.float64 DataType.float64)
  | DataType.decimal =>
    Except.ok (BuiltExpr.unaryExpr DataType.decimal DataType.decimal)
  | _ => Except.error (ExprError.UnsupportedFunction name)

/-- The `gen_unary_impl_fast!` dispatch used by `BitwiseNot`
(expr_unary.rs lines 282-289): the three integer types succeed. -/
def bitwiseArm (child_type : DataType) : Except ExprError BuiltExpr :=
  match child_type with
  | DataType.int16 => Except.ok (BuiltExpr.fastUnary DataType.int16 DataType.int16)
  | DataType.int32 => Except.ok (BuiltExpr.fastUnary DataType.int32 DataType.int32)
  | DataType.int64 => Except.ok (BuiltExpr.fastUnary DataType.int64 DataType.int64)
  | _ => Except.error (ExprError.UnsupportedFunction "BitwiseNot")

/-- The `gen_round_expr!` dispatch used by `Ceil`, `Floor` and `Round`
(expr_unary.rs lines 110-124): float64 and decimal succeed. -/
def roundArm (name : String) (child_type : DataType) : Except ExprError BuiltExpr :=
  match child_type with
  | DataType.float64 =>
    Except.ok (BuiltExpr.fastUnary DataType.float64 DataType.float64)
  | DataType.decimal =>
    Except.ok (BuiltExpr.fastUnary DataType.decimal DataType.decimal)
  | _ => Except.error (ExprError.UnsupportedFunction name)

/-- `new_unary_expr` (expr_unary.rs lines 127-332): dispatch on the
expression type, the return type and the child's return type. The match on
the triple in the source is equivalently organized as an outer match on the
expression type (the source's arms are mutually exclusive on it), with the
final catch-all producing `UnsupportedFunction`. -/
def new_unary_expr (castTable : DataType → DataType → Bool)
    (expr_type : ProstType) (return_type child_type : DataType) :
    Except ExprError BuiltExpr :=
  match expr_type with
  | ProstType.cast => castDispatch castTable return_type child_type
  | ProstType.boolOut =>
    match child_type with
    | DataType.boolean => Except.ok (BuiltExpr.unaryBytesExpr DataType.boolean)
    | _ => Except.error (ExprError.UnsupportedFunction "BoolOut")
  | ProstType.not => Except.ok BuiltExpr.boolUnary
  | ProstType.isTrue => Except.ok BuiltExpr.boolUnary
  | ProstType.isNotTrue => Except.ok BuiltExpr.boolUnary
  | ProstType.isFalse => Except.ok BuiltExpr.boolUnary
  | ProstType.isNotFalse => Except.ok BuiltExpr.boolUnary
  | ProstType.isNull => Except.ok BuiltExpr.isNullExpr
  | ProstType.isNotNull => Except.ok BuiltExpr.isNotNullExpr
  | ProstType.upper => Except.ok (BuiltExpr.unaryBytesExpr DataType.varchar)
  | ProstType.lower => Except.ok (BuiltExpr.unaryBytesExpr DataType.varchar)
  | ProstType.md5 => Except.ok (BuiltExpr.unaryBytesExpr DataType.varchar)
  | ProstType.ascii => Except.ok (BuiltExpr.unaryExpr DataType.varchar DataType.int32)
  | ProstType.charLength =>
    Except.ok (BuiltExpr.unaryExpr DataType.varchar DataType.int32)
  | ProstType.octetLength =>
    Except.ok (BuiltExpr.unaryExpr DataType.varchar DataType.int32)
  | ProstType.bitLength =>
    Except.ok (BuiltExpr.unaryExpr DataType.varchar DataType.int32)
  | ProstType.neg => atmArm "Neg" child_type
  | ProstType.abs => atmArm "Abs" child_type
  | ProstType.bitwiseNot => bitwiseArm child_type
  | ProstType.ceil => roundArm "Ceil" child_type
  | ProstType.floor =>
    match return_type, child_type with
    | DataType.float64, DataType.float64 =>
      Except.ok (BuiltExpr.fastUnary DataType.float64 DataType.float64)
    | _, _ => Except.error (ExprError.UnsupportedFunction "Floor")
  | ProstType.round => roundArm "Ceil" child_type
  | ProstType.exp => Except.ok (BuiltExpr.unaryExpr DataType.float64 DataType.float64)
  | ProstType.toTimestamp =>
    match return_type, child_type with
    | DataType.timestamptz, DataType.float64 =>
      Except.ok (BuiltExpr.unaryExpr DataType.float64 DataType.int64)
    | _, _ => Except.error (ExprError.UnsupportedFunction "ToTimestamp")
  | ProstType.jsonbTypeof =>
    match return_type, child_type with
    | DataType.varchar, DataType.jsonb =>
      Except.ok (BuiltExpr.unaryBytesExpr DataType.jsonb)
    | _, _ => Except.error (ExprError.UnsupportedFunction "JsonbTypeof")
  | ProstType.jsonbArrayLength =>
    match return_type, child_type with
    | DataType.int32, DataType.jsonb =>
      Except.ok (BuiltExpr.unaryExpr DataType.jsonb DataType.int32)
    | _, _ => Except.error (ExprError.UnsupportedFunction "JsonbArrayLength")
  | ProstType.otherType _ =>
    Except.error (ExprError.UnsupportedFunction "unsupported")

/-- The numeric child types the `gen_unary_atm_expr!` dispatch covers. -/
def atmSupported : DataType → Bool
  | DataType.int16 => true
  | DataType.int32 => true
  | DataType.int64 => true
  | DataType.float32 => true
  | DataType.float64 => true
  | DataType.decimal => true
  | _ => false

/-- The integer child types the `BitwiseNot` dispatch covers. -/
def bitwiseSupported : DataType → Bool
  | DataType.int16 => true
  | DataType.int32 => true
  | DataType.int64 => true
  | _ => false

/-- The child types the rounding dispatch covers. -/
def roundSupported : DataType → Bool
  | DataType.float64 => true
  | DataType.decimal => true
  | _ => false

/-- The (return type, child type) pairs covered by the `Cast` dispatch:
the three structural arms plus the abstract cast table. -/
def castSupported (castTable : DataType → DataType → Bool)
    (return_type child_type : DataType) : Bool :=
  match return_type, child_type with
  | DataType.list _, DataType.varchar => true
  | DataType.struct _, DataType.struct _ => true
  | DataType.list _, DataType.list _ => true
  | r, c => castTable c r

/-- The combinations of expression type, return type and child type covered
by a construction arm of `new_unary_expr`; exactly these yield `Ok`. -/
def unary_expr_supported (castTable : DataType → DataType → Bool)
    (expr_type : ProstType) (return_type child_type : DataType) : Bool :=
  match expr_type with
  | ProstType.cast => castSupported castTable return_type child_type
  | ProstType.boolOut =>
    match child_type with
    | DataType.boolean => true
    | _ => false
  | ProstType.not => true
  | ProstType.isTrue => true
  | ProstType.isNotTrue => true
  | ProstType.isFalse => true
  | ProstType.isNotFalse => true
  | ProstType.isNull => true
  | ProstType.isNotNull => true
  | ProstType.upper => true
  | ProstType.lower => true
  | ProstType.md5 => true
  | ProstType.ascii => true
  | ProstType.charLength => true
  | ProstType.octetLength => true
  | ProstType.bitLength => true
  | ProstType.neg => atmSupported child_type
  | ProstType.abs => atmSupported child_type
  | ProstType.bitwiseNot => bitwiseSupported child_type
  | ProstType.ceil => roundSupported child_type
  | ProstType.floor =>
    match return_type, child_type with
    | DataType.float64, DataType.float64 => true
    | _, _ => false
  | ProstType.round => roundSupported child_type
  | ProstType.exp => true
  | ProstType.toTimestamp =>
    match return_type, child_type with
    | DataType.timestamptz, DataType.float64 => true
    | _, _ => false
  | ProstType.jsonbTypeof =>
    match return_type, child_type with
    | DataType.varchar, DataType.jsonb => true
    | _, _ => false
  | ProstType.jsonbArrayLength =>
    match return_type, child_type with
    | DataType.int32, DataType.jsonb => true
    | _, _ => false
  | ProstType.otherType _ => false

/-- A concrete validated memory manager used for concrete instantiations:
budget 1000 bytes, 100 ms interval, thresholds 70/90/95, max step 4. -/
def exampleManager : GlobalMemoryManager :=
  GlobalMemoryManager.new 1000 100 zeroMetrics
    { cfg := { low := 70, soft := 90, hard := 95, max_step := 4 } }

/-- A concrete `LogicalTopN` satisfying the preconditions of
`StreamTopN::new`: empty group key, limit 3, single-distributed input with a
two-column schema. -/
def topnExample : LogicalTopN :=
  { group_key := []
    limit := 3
    offset := 1
    with_ties := false
    topn_order := [(0, true)]
    ctx := 0
    functional_dependency := { deps := [] }
    input :=
      { schema_len := 2
        logical_pk := [0]
        dist := Distribution.single
        append_only := false } }

/-- The stream node `StreamTopN::new` builds from `topnExample`. -/
def topnExampleNode : StreamTopN :=
  { base := PlanBase.new_stream 0 2 [0] { deps := [] } Distribution.single false
      (FixedBitSet.with_capacity 2)
    logical := topnExample }

/-! ## Theorems -/

/-- One tick of the (spec-modelled) policy never moves the watermark
backwards: the published value is the previous one plus a non-negative
advance. -/
theorem apply_watermark_ge (p : MemoryControlPolicy) (total intervalMs : Nat)
    (prev : MemoryControlStats) (u : UsageReading) (now wm : Nat) :
    wm ≤ (p.apply total intervalMs prev u now wm).2 :=
  Nat.le_add_right wm _

/-- The watermark after tick `n + 1` dominates the watermark after
tick `n`. -/
theorem runLoop_watermark_le_succ (m : GlobalMemoryManager) (now0 : Nat)
    (usage : Nat → UsageReading) (times : Nat → Nat) (n : Nat) :
    (m.runLoop now0 usage times n).watermark ≤
      (m.runLoop now0 usage times (n + 1)).watermark :=
  apply_watermark_ge m.memory_control_policy m.total_compute_memory_bytes
    m.barrier_interval_ms (m.runLoop now0 usage times n).stats (usage n)
    (times n) (m.runLoop now0 usage times n).watermark

/-- C1: for every sequence of controller ticks the shared watermark epoch is
monotonically non-decreasing — the value read after tick `n + 1` is at least
the value read after tick `n`, and more generally a value once published is
never undercut by any later tick. -/
theorem C1_watermark_monotone (m : GlobalMemoryManager) (now0 : Nat)
    (usage : Nat → UsageReading) (times : Nat → Nat) (i j : Nat) (h : i ≤ j) :
    (m.runLoop now0 usage times i).watermark ≤
      (m.runLoop now0 usage times j).watermark := by
  induction j, h using Nat.le_induction with
  | base => exact Nat.le_refl _
  | succ j hij ih =>
    exact Nat.le_trans ih (runLoop_watermark_le_succ m now0 usage times j)

/-- Witness for C1 at a concrete controller, usage stream and tick pair. -/
theorem C1_watermark_monotone_witness :
    0 ≤ 2 ∧
      (exampleManager.runLoop 0 (fun _ => ⟨0, 0, 0⟩) (fun _ => 0) 0).watermark ≤
        (exampleManager.runLoop 0 (fun _ => ⟨0, 0, 0⟩) (fun _ => 0) 2).watermark :=
  ⟨by decide,
    C1_watermark_monotone exampleManager 0 (fun _ => ⟨0, 0, 0⟩) (fun _ => 0) 0 2
      (by decide)⟩

/-- C2: constructing a controller whose pressure thresholds are misordered
(`low ≥ soft` or `soft ≥ hard`) fails at construction: no running controller
is produced, so the violation can never surface at a runtime tick. -/
theorem C2_misordered_thresholds_fail (total intervalMs : Nat)
    (metrics : StreamingMetrics) (cfg : PolicyConfig)
    (h : cfg.soft ≤ cfg.low ∨ cfg.hard ≤ cfg.soft) :
    mkController total intervalMs metrics cfg = none := by
  unfold mkController MemoryControlPolicy.validate
  have hn : ¬(0 < cfg.low ∧ cfg.low < cfg.soft ∧ cfg.soft < cfg.hard) := by
    omega
  rw [if_neg hn]
  rfl

/-- Witness for C2 at a concrete misordered configuration
(`low = 90 ≥ soft = 70`). -/
theorem C2_misordered_thresholds_fail_witness :
    ((70 : Nat) ≤ 90 ∨ (95 : Nat) ≤ 70) ∧
      mkController 1000 100 zeroMetrics
        { low := 90, soft := 70, hard := 95, max_step := 4 } = none :=
  ⟨by decide,
    C2_misordered_thresholds_fail 1000 100 zeroMetrics
      { low := 90, soft := 70, hard := 95, max_step := 4 } (by decide)⟩

/-- C3: on a tick whose usage readings are all zero, a validated policy
produces a watermark step no larger than the previous tick's step, and the
(total) policy function raises no error. -/
theorem C3_zero_usage_step_decays (cfg : PolicyConfig)
    (p : MemoryControlPolicy) (total intervalMs : Nat)
    (prev : MemoryControlStats) (u : UsageReading) (now wm : Nat)
    (hv : MemoryControlPolicy.validate cfg = some p) (htotal : 0 < total)
    (hb : u.batch_bytes = 0) (hs : u.streaming_bytes = 0)
    (ha : u.allocator_bytes = 0) :
    (p.apply total intervalMs prev u now wm).1.lru_watermark_step ≤
      prev.lru_watermark_step := by
  unfold MemoryControlPolicy.validate at hv
  split at hv
  · rename_i hcond
    obtain ⟨hl, hls, hsh⟩ := hcond
    cases hv
    have hhard : 0 < cfg.hard * total := Nat.mul_pos (by omega) htotal
    have hlow : 0 < cfg.low * total := Nat.mul_pos hl htotal
    show decideStep cfg total u prev.lru_watermark_step ≤ prev.lru_watermark_step
    unfold decideStep
    rw [hb, hs, ha]
    simp only [Nat.add_zero, Nat.max_self, Nat.zero_mul]
    rw [if_neg (by omega), if_neg (by omega)]
    exact Nat.sub_le _ _
  · exact absurd hv (by simp)

/-- Witness for C3 at a concrete validated policy and an all-zero reading. -/
theorem C3_zero_usage_step_decays_witness :
    MemoryControlPolicy.validate { low := 70, soft := 90, hard := 95, max_step := 4 } =
        some { cfg := { low := 70, soft := 90, hard := 95, max_step := 4 } } ∧
      (MemoryControlPolicy.apply
            { cfg := { low := 70, soft := 90, hard := 95, max_step := 4 } } 1000 100
            (initialStats 5) ⟨0, 0, 0⟩ 7 3).1.lru_watermark_step ≤
        (initialStats 5).lru_watermark_step :=
  ⟨by decide,
    C3_zero_usage_step_decays { low := 70, soft := 90, hard := 95, max_step := 4 }
      { cfg := { low := 70, soft := 90, hard := 95, max_step := 4 } } 1000 100
      (initialStats 5) ⟨0, 0, 0⟩ 7 3 (by decide) (by decide) rfl rfl rfl⟩

/-- C4: for every configured tick interval, including 0, the effective
interval stored by `GlobalMemoryManager::new` is the maximum of the supplied
value and the hard-coded 10 ms minimum, hence always at least 10 ms. -/
theorem C4_tick_interval_clamped (total intervalMs : Nat)
    (metrics : StreamingMetrics) (policy : MemoryControlPolicy) :
    (GlobalMemoryManager.new total intervalMs metrics policy).barrier_interval_ms =
        max intervalMs 10 ∧
      10 ≤ (GlobalMemoryManager.new total intervalMs metrics policy).barrier_interval_ms :=
  ⟨rfl, Nat.le_max_right intervalMs 10⟩

/-- C5: for every configuration, `GlobalMemoryManager::new` initializes the
shared watermark epoch to 0, and `get_watermark_epoch` is a pure load of
that value, mutating nothing. -/
theorem C5_watermark_initialized_zero (total intervalMs : Nat)
    (metrics : StreamingMetrics) (policy : MemoryControlPolicy) :
    (GlobalMemoryManager.new total intervalMs metrics policy).watermark_epoch = 0 ∧
      GlobalMemoryManager.get_watermark_epoch
          (GlobalMemoryManager.new total intervalMs metrics policy) =
        (GlobalMemoryManager.new total intervalMs metrics policy).watermark_epoch :=
  ⟨rfl, rfl⟩

/-- C6: on every tick, after the policy decision, the loop publishes exactly
the per-tick metrics set — the two watermark time gauges, the watermark
step, the allocator, streaming and batch usage gauges — from the post-apply
stats, and increments the cumulative tick counter by exactly one. This
holds for every policy `apply` function. -/
theorem C6_metrics_published_per_tick
    (applyFn : Nat → Nat → MemoryControlStats → UsageReading → Nat → Nat →
      MemoryControlStats × Nat)
    (m : GlobalMemoryManager) (u : UsageReading) (now : Nat) (st : LoopState) :
    (GlobalMemoryManager.tickOnce applyFn m u now st).stats =
        (applyFn m.total_compute_memory_bytes m.barrier_interval_ms st.stats u
            now st.watermark).1 ∧
      (GlobalMemoryManager.tickOnce applyFn m u now st).metrics.lru_current_watermark_time_ms =
        i64ofU64 (GlobalMemoryManager.tickOnce applyFn m u now st).stats.lru_watermark_time_ms ∧
      (GlobalMemoryManager.tickOnce applyFn m u now st).metrics.lru_physical_now_ms =
        i64ofU64 (GlobalMemoryManager.tickOnce applyFn m u now st).stats.lru_physical_now_ms ∧
      (GlobalMemoryManager.tickOnce applyFn m u now st).metrics.lru_watermark_step =
        i64ofU64 (GlobalMemoryManager.tickOnce applyFn m u now st).stats.lru_watermark_step ∧
      (GlobalMemoryManager.tickOnce applyFn m u now st).metrics.jemalloc_allocated_bytes =
        i64ofU64 (GlobalMemoryManager.tickOnce applyFn m u now st).stats.jemalloc_allocated_mib ∧
      (GlobalMemoryManager.tickOnce applyFn m u now st).metrics.stream_total_mem_usage =
        i64ofU64 (GlobalMemoryManager.tickOnce applyFn m u now st).stats.streaming_memory_usage ∧
      (GlobalMemoryManager.tickOnce applyFn m u now st).metrics.batch_total_mem_usage =
        i64ofU64 (GlobalMemoryManager.tickOnce applyFn m u now st).stats.batch_memory_usage ∧
      (GlobalMemoryManager.tickOnce applyFn m u now st).metrics.lru_runtime_loop_count =
        st.metrics.lru_runtime_loop_count + 1 :=
  ⟨rfl, rfl, rfl, rfl, rfl, rfl, rfl, rfl⟩

/-- C7: every stream top-N node built by `StreamTopN::new` carries an
all-unset watermark-column bitset sized to its input schema: the node never
produces watermark columns. -/
theorem C7_watermark_columns_all_false (logical : LogicalTopN) (s : StreamTopN)
    (h : StreamTopN.new logical = some s) :
    s.base.watermark_columns.length = logical.input.schema_len ∧
      ∀ b ∈ s.base.watermark_columns, b = false := by
  unfold StreamTopN.new at h
  split at h
  · split at h
    · cases hd : logical.input.dist <;> rw [hd] at h
      case single =>
        cases h
        refine ⟨List.length_replicate _ _, ?_⟩
        intro b hb
        exact List.eq_of_mem_replicate hb
      all_goals exact Option.noConfusion h
    · exact Option.noConfusion h
  · exact Option.noConfusion h

/-- Witness for C7 at a concrete logical top-N. -/
theorem C7_watermark_columns_all_false_witness :
    StreamTopN.new topnExample = some topnExampleNode ∧
      topnExampleNode.base.watermark_columns.length = topnExample.input.schema_len :=
  ⟨rfl, (C7_watermark_columns_all_false topnExample topnExampleNode rfl).1⟩

/-- C9: `StreamTopN::new` succeeds exactly when the logical top-N has an
empty group key, a strictly positive limit and a single-distributed input;
on any input violating these preconditions it panics (embedded as `none`). -/
theorem C9_stream_topn_preconditions (logical : LogicalTopN) :
    (StreamTopN.new logical).isSome = true ↔
      logical.group_key = [] ∧ 0 < logical.limit ∧
        logical.input.dist = Distribution.single := by
  unfold StreamTopN.new
  split
  · split
    · cases hd : logical.input.dist <;> simp_all [List.isEmpty_iff]
    · simp_all [List.isEmpty_iff]
  · simp_all [List.isEmpty_iff]

/-- Witness for C9: the concrete logical top-N satisfying the preconditions
does construct. -/
theorem C9_stream_topn_preconditions_witness :
    (StreamTopN.new topnExample).isSome = true :=
  (C9_stream_topn_preconditions topnExample).mpr ⟨rfl, by decide, rfl⟩

/-- The general cast arm succeeds exactly on pairs in the cast table. -/
theorem castArm_isOk (ct : DataType → DataType → Bool) (r c : DataType) :
    (castArm ct r c).isOk = ct c r := by
  unfold castArm
  cases h : ct c r <;> rfl

/-- The general cast arm only fails with an unsupported-cast error. -/
theorem castArm_errors (ct : DataType → DataType → Bool) (r c : DataType) :
    exceptOkOr ExprError.isUnsupported (castArm ct r c) = true := by
  unfold castArm
  cases h : ct c r <;> rfl

/-- The cast dispatch succeeds exactly on the supported pairs. -/
theorem castDispatch_isOk (ct : DataType → DataType → Bool) (r c : DataType) :
    (castDispatch ct r c).isOk = castSupported ct r c := by
  cases r <;> cases c <;> first | rfl | exact castArm_isOk ct _ _

/-- The cast dispatch only fails with unsupported-function or
unsupported-cast errors. -/
theorem castDispatch_errors (ct : DataType → DataType → Bool) (r c : DataType) :
    exceptOkOr ExprError.isUnsupported (castDispatch ct r c) = true := by
  cases r <;> cases c <;> first | rfl | exact castArm_errors ct _ _

/-- The arithmetic dispatch succeeds exactly on the numeric child types. -/
theorem atmArm_isOk (name : String) (c : DataType) :
    (atmArm name c).isOk = atmSupported c := by
  cases c <;> rfl

/-- The arithmetic dispatch only fails with an unsupported-function error. -/
theorem atmArm_errors (name : String) (c : DataType) :
    exceptOkOr ExprError.isUnsupported (atmArm name c) = true := by
  cases c <;> rfl

/-- The bitwise-not dispatch succeeds exactly on the integer child types. -/
theorem bitwiseArm_isOk (c : DataType) :
    (bitwiseArm c).isOk = bitwiseSupported c := by
  cases c <;> rfl

/-- The bitwise-not dispatch only fails with an unsupported-function
error. -/
theorem bitwiseArm_errors (c : DataType) :
    exceptOkOr ExprError.isUnsupported (bitwiseArm c) = true := by
  cases c <;> rfl

/-- The rounding dispatch succeeds exactly on float64 and decimal. -/
theorem roundArm_isOk (name : String) (c : DataType) :
    (roundArm name c).isOk = roundSupported c := by
  cases c <;> rfl

/-- The rounding dispatch only fails with an unsupported-function error. -/
theorem roundArm_errors (name : String) (c : DataType) :
    exceptOkOr ExprError.isUnsupported (roundArm name c) = true := by
  cases c <;> rfl

/-- C8: `new_unary_expr` returns `Ok` exactly on the combinations covered by
a construction arm, and on every uncovered combination it returns an
`UnsupportedFunction` or `UnsupportedCast` error — never any other error and
never a panic (the embedding is a total function). This holds for every
contents of the cast-variant table. -/
theorem C8_new_unary_expr_classified (ct : DataType → DataType → Bool)
    (t : ProstType) (r c : DataType) :
    (new_unary_expr ct t r c).isOk = unary_expr_supported ct t r c ∧
      exceptOkOr ExprError.isUnsupported (new_unary_expr ct t r c) = true := by
  refine ⟨?_, ?_⟩ <;> cases t <;>
    first
      | rfl
      | exact castDispatch_isOk ct r c
      | exact castDispatch_errors ct r c
      | exact atmArm_isOk _ c
      | exact atmArm_errors _ c
      | exact bitwiseArm_isOk c
      | exact bitwiseArm_errors c
      | exact roundArm_isOk _ c
      | exact roundArm_errors _ c
      | (cases c <;> rfl)
      | (cases r <;> cases c <;> rfl)

/-- C10: `validate_response` maps a successful response to a skip count of
0; an error response to a skip count of 1 exactly when it wraps a database
error whose message is classified permissible; any other error to the
consolidated failure message; and it never returns a count other than 0
or 1. -/
theorem C10_validate_response_classified {Row : Type}
    (is_permissible_error : String → Bool) (setup_sql query : String)
    (response : Except PgError Row) :
    (∀ row, response = Except.ok row →
        validate_response is_permissible_error setup_sql query response =
          Except.ok 0) ∧
      (∀ e, response = Except.error e →
        ((∃ dbe, e.db_error = some dbe ∧ is_permissible_error dbe.to_string = true) →
            validate_response is_permissible_error setup_sql query response =
              Except.ok 1) ∧
          (¬(∃ dbe, e.db_error = some dbe ∧
                is_permissible_error dbe.to_string = true) →
            validate_response is_permissible_error setup_sql query response =
              Except.error (format_fail_reason setup_sql query e))) ∧
      (∀ n, validate_response is_permissible_error setup_sql query response =
          Except.ok n → n = 0 ∨ n = 1) := by
  refine ⟨?_, ?_, ?_⟩
  · intro row hr
    rw [hr]
    rfl
  · intro e he
    rw [he]
    simp only [validate_response]
    refine ⟨fun hex => ?_, fun hnex => ?_⟩
    · obtain ⟨dbe, hdb, hperm⟩ := hex
      simp [hdb, hperm]
    · cases hdb : e.db_error with
      | none => rfl
      | some dbe =>
        have hperm : is_permissible_error dbe.to_string = false := by
          cases hp : is_permissible_error dbe.to_string
          · rfl
          · exact absurd ⟨dbe, hdb, hp⟩ hnex
        simp [hperm]
  · intro n hn
    cases response with
    | ok row =>
      left
      have h0 : (Except.ok 0 : Except String Int) = Except.ok n := hn
      injection h0 with h1
      omega
    | error e =>
      simp only [validate_response] at hn
      cases hdb : e.db_error with
      | none =>
        rw [hdb] at hn
        simp at hn
      | some dbe =>
        rw [hdb] at hn
        cases hperm : is_permissible_error dbe.to_string
        · simp [hperm] at hn
        · simp [hperm] at hn
          omega

/-- Witness for C10: an error response wrapping a permissible database error
counts exactly one skipped query. -/
theorem C10_validate_response_classified_witness :
    validate_response (fun _ => true) "setup" "query"
        (Except.error { message := "boom", db_error := some { message := "db" } } :
          Except PgError Unit) =
      Except.ok 1 :=
  ((C10_validate_response_classified (fun _ => true) "setup" "query"
        (Except.error { message := "boom", db_error := some { message := "db" } })).2.1
      { message := "boom", db_error := some { message := "db" } } rfl).1
    ⟨{ message := "db" }, rfl, rfl⟩

end RisingWave
